import Mathlib

set_option maxHeartbeats 1000000

namespace PadRelay

/-!
Shallow embedding of the PadRelay session-protocol core
(`src/padrelay/protocol`, `src/padrelay/security`, `src/padrelay/server`).

Python runtime values decoded from JSON are modelled by `PyVal`; dictionaries
are association lists keyed by strings.  The cryptographic primitives used by
the code (`hmac.new(...).hexdigest()` and `hashlib.pbkdf2_hmac`) are Python
standard-library externals, so they are parameters of the embedding, bundled
in `Crypto`.  Wall-clock readings (`datetime.now()`, `time.time()`) are
explicit arguments of every operation that consumes them.
-/

/-- Python runtime values as they occur in decoded JSON messages.  `pybool`
is kept distinct from `num` because the source distinguishes them with
`isinstance(b, bool)`, while `isinstance(x, (int, float))` also accepts
booleans (Python's `bool` is a subclass of `int`).  `tuple` is kept distinct
from `list` because `validate_input_message` requires hats to be tuples. -/
inductive PyVal where
  | pynone
  | pybool (b : Bool)
  | num (q : ℚ)
  | str (s : String)
  | list (l : List PyVal)
  | tuple (l : List PyVal)
  | dict (entries : List (String × PyVal))

/-- A decoded JSON message: a Python `dict` with string keys. -/
abbrev Msg := List (String × PyVal)

/-- `d.get(key)`: first binding of `key`, or `None` (here `Option.none`). -/
def dictGet : Msg → String → Option PyVal
  | [], _ => none
  | (k, v) :: t, key => if k = key then some v else dictGet t key

/-- `d.get(key, default)`. -/
def dictGetD (m : Msg) (key : String) (d : PyVal) : PyVal :=
  (dictGet m key).getD d

/-- Python truthiness of a value (`if x:`). -/
def pyTruthy : PyVal → Bool
  | .pynone => false
  | .pybool b => b
  | .num q => decide (q ≠ 0)
  | .str s => decide (s ≠ "")
  | .list l => !l.isEmpty
  | .tuple l => !l.isEmpty
  | .dict e => !e.isEmpty

/-- `isinstance(v, bool)`. -/
def isPyBool : PyVal → Bool
  | .pybool _ => true
  | _ => false

/-- `isinstance(v, (int, float))`: true for numbers and booleans. -/
def isNumber : PyVal → Bool
  | .pybool _ => true
  | .num _ => true
  | _ => false

/-- Numeric view of a value, if comparison with a number would succeed in
Python (`True` compares as `1`, `False` as `0`). -/
def toQ? : PyVal → Option ℚ
  | .pybool b => some (if b then 1 else 0)
  | .num q => some q
  | _ => none

/-- `lo <= v <= hi` in Python: false when the comparison raises `TypeError`
(which the source catches with `except Exception: return False`). -/
def numBetween (lo hi : ℚ) (v : PyVal) : Bool :=
  match toQ? v with
  | some q => decide (lo ≤ q) && decide (q ≤ hi)
  | none => false

/-- `message.get("type") != "input"`: the stored value equals the string
`"input"` exactly when it is that string (Python `==` across types is
`False` without raising). -/
def isInputType (m : Msg) : Bool :=
  match dictGet m "type" with
  | some (.str t) => decide (t = "input")
  | _ => false

/-- `validate_input_message` (src/padrelay/protocol/messages.py, lines
226-261), translated branch by branch.  The surrounding try/except maps any
raised exception (a non-numeric hat component reaching `-1 <= x <= 1`) to
`False`, which the match-based helpers reproduce directly. -/
def validate_input_message (m : Msg) : Bool :=
  -- message.get("type") != "input"
  if !isInputType m then false else
  -- buttons: list of booleans
  let buttons := dictGetD m "buttons" (.list [])
  let buttonsOK := match buttons with
    | .list bs => bs.all isPyBool
    | _ => false
  if !buttonsOK then false else
  -- axes: list of numbers, each within [-1, 1]
  let axes := dictGetD m "axes" (.list [])
  let axesOK := match axes with
    | .list l => l.all isNumber && l.all (numBetween (-1) 1)
    | _ => false
  if !axesOK then false else
  -- triggers: only checked when truthy; list of numbers within [0, 1]
  let triggers := dictGetD m "triggers" (.list [])
  let triggersOK :=
    if pyTruthy triggers then
      match triggers with
      | .list l => l.all isNumber && l.all (numBetween 0 1)
      | _ => false
    else true
  if !triggersOK then false else
  -- hats: only checked when truthy; list of 2-tuples whose components
  -- compare within [-1, 1] (note: the interval check, not the set {-1,0,1}
  -- stated in the function's own comment)
  let hats := dictGetD m "hats" (.list [])
  let hatsOK :=
    if pyTruthy hats then
      match hats with
      | .list l =>
          l.all (fun h => match h with
            | .tuple [x, y] => numBetween (-1) 1 x && numBetween (-1) 1 y
            | _ => false)
      | _ => false
    else true
  hatsOK

/-- The cryptographic primitives the code takes from the Python standard
library (`hmac.new(key, msg, hashlib.sha256).hexdigest()` and
`hashlib.pbkdf2_hmac("sha256", password, salt, iterations).hex()`).  They
are external to the repository, so the embedding is parametric in them. -/
structure Crypto where
  hmacSha256 : String → String → String
  pbkdf2Sha256 : String → String → Int → String

/-- Python `x or y` over optional strings, combined with the `if not key:`
guards that follow it in the source: the first truthy (present and
non-empty) operand, or `none`. -/
def firstTruthy : Option String → Option String → Option String
  | some s, y => if s ≠ "" then some s else match y with
      | some t => if t ≠ "" then some t else none
      | none => none
  | none, y => match y with
      | some t => if t ≠ "" then some t else none
      | none => none

/-- `Authenticator` state (src/padrelay/security/auth.py). -/
structure Authenticator where
  password_plain : Option String
  salt : Option String
  iterations : Int
  password_hash : Option String
deriving DecidableEq, Repr

namespace Authenticator

/-- `DEFAULT_ITERATIONS`. -/
def DEFAULT_ITERATIONS : Int := 100000

/-- `UDP_TOKEN_TTL` in seconds. -/
def UDP_TOKEN_TTL : Int := 60

/-- `_is_hash_string`: starts with `"pbkdf2_sha256$"` and splits on `$`
into exactly four parts. -/
def is_hash_string (value : String) : Bool :=
  ("pbkdf2_sha256$".isPrefixOf value) && decide ((value.splitOn "$").length = 4)

/-- `_parse_hash_string`: `(int(parts[1]), parts[2], parts[3])`; Python's
`int` raises `ValueError` on a non-numeric field, modelled as `none`. -/
def parse_hash_string (value : String) : Option (Int × String × String) :=
  match value.splitOn "$" with
  | [p0, p1, p2, p3] =>
      if p0 = "pbkdf2_sha256" then
        match p1.toInt? with
        | some it => some (it, p2, p3)
        | none => none
      else none
  | _ => none

/-- The field values `__init__` installs before looking at the password. -/
def base : Authenticator :=
  { password_plain := none, salt := none,
    iterations := DEFAULT_ITERATIONS, password_hash := none }

/-- `__init__(password)`.  `freshSalt` stands for `secrets.token_hex(16)`
(external randomness).  A password that looks like a hash string but whose
iteration field is not an integer makes the constructor raise, modelled as
`none`.  An absent or empty password (`if password:` is falsy) configures
no key material. -/
def init (c : Crypto) (freshSalt : String) (password : Option String) :
    Option Authenticator :=
  match password with
  | none => some base
  | some pw =>
      if pw = "" then some base
      else if is_hash_string pw then
        match parse_hash_string pw with
        | some (it, s, h) =>
            some { password_plain := none, salt := some s,
                   iterations := it, password_hash := some h }
        | none => none
      else
        some { password_plain := some pw, salt := some freshSalt,
               iterations := DEFAULT_ITERATIONS,
               password_hash := some (c.pbkdf2Sha256 pw freshSalt DEFAULT_ITERATIONS) }

/-- `set_parameters(salt, iterations)`: store the new parameters and, if a
plaintext password is retained (truthy), recompute the derived hash. -/
def set_parameters (c : Crypto) (a : Authenticator) (salt : String)
    (iterations : Int) : Authenticator :=
  match a.password_plain with
  | some p =>
      if p ≠ "" then
        { a with
          salt := some salt,
          iterations := iterations,
          password_hash := some (c.pbkdf2Sha256 p salt iterations) }
      else
        { a with salt := some salt, iterations := iterations }
  | none => { a with salt := some salt, iterations := iterations }

/-- Key material for the TCP challenge-response:
`key = self.password_hash or self.password_plain`, `none` when the
following `if not key:` would fire. -/
def tcpKey (a : Authenticator) : Option String :=
  firstTruthy a.password_hash a.password_plain

/-- Key material for UDP tokens (note the opposite order):
`key = self.password_plain or self.password_hash`. -/
def udpKey (a : Authenticator) : Option String :=
  firstTruthy a.password_plain a.password_hash

/-- `generate_tcp_response(challenge)`: empty string without key material,
otherwise `hmac.new(key, challenge, sha256).hexdigest()`. -/
def generate_tcp_response (c : Crypto) (a : Authenticator) (challenge : String) :
    String :=
  match tcpKey a with
  | none => ""
  | some k => c.hmacSha256 k challenge

/-- `verify_tcp_response(challenge, response)`: open (always true) without
key material, otherwise a constant-time string comparison of the response
against the recomputed HMAC. -/
def verify_tcp_response (c : Crypto) (a : Authenticator) (challenge response : String) :
    Bool :=
  match tcpKey a with
  | none => true
  | some k => decide (response = c.hmacSha256 k challenge)

/-- The HMAC input for a UDP token window: `f"udp_auth{window}"`. -/
def udpWindowMsg (w : Int) : String := "udp_auth" ++ toString w

/-- `generate_udp_token(current_time)`: `None` without key material,
otherwise HMAC over `"udp_auth" + str(current_time // 60)`.  Times are
`Int` and the window uses Python floor division. -/
def generate_udp_token (c : Crypto) (a : Authenticator) (current_time : Int) :
    Option String :=
  match udpKey a with
  | none => none
  | some k => some (c.hmacSha256 k (udpWindowMsg (current_time.fdiv UDP_TOKEN_TTL)))

/-- `authenticate_udp(message, current_time)`: open without key material;
otherwise the message's `auth_token` must be truthy and equal (as a Python
string) to the token of the current or the immediately preceding window. -/
def authenticate_udp (c : Crypto) (a : Authenticator) (message : Msg)
    (current_time : Int) : Bool :=
  match udpKey a with
  | none => true
  | some _ =>
      match dictGet message "auth_token" with
      | some (.str tok) =>
          if tok = "" then false
          else
            -- token in [generate_udp_token(t), generate_udp_token(t - TTL)]
            decide (some tok = generate_udp_token c a current_time) ||
            decide (some tok = generate_udp_token c a (current_time - UDP_TOKEN_TTL))
      -- a non-string token is either falsy (`if not token`) or compares
      -- unequal to both hex strings; an absent one is falsy: all reject
      | some _ => false
      | none => false

end Authenticator

/-! ## Rate/Connection Tracker (src/padrelay/security/rate_limiting.py) -/

/-- A client address `Tuple[str, int]`. -/
abbrev Addr := String × Nat

/-- The per-address record kept in `ConnectionTracker.clients`.  Timestamps
are rationals (seconds); `datetime.now()` readings are explicit arguments
of each operation. -/
structure ClientRec where
  last_seen : ℚ
  authenticated : Bool
  last_requests : List ℚ
deriving DecidableEq, Repr

/-- The default record the `defaultdict` creates on first access. -/
def ClientRec.fresh (now : ℚ) : ClientRec :=
  { last_seen := now, authenticated := false, last_requests := [] }

/-- Set a key in an association list, replacing the first existing binding
(Python dicts keep one binding per key). -/
def alistSet {β : Type} : List (Addr × β) → Addr → β → List (Addr × β)
  | [], a, v => [(a, v)]
  | (k, w) :: t, a, v => if k = a then (a, v) :: t else (k, w) :: alistSet t a v

/-- Remove a key from an association list (`del d[k]`). -/
def alistErase {β : Type} (l : List (Addr × β)) (a : Addr) : List (Addr × β) :=
  l.filter (fun p => p.1 ≠ a)

/-- `ConnectionTracker` state. -/
structure ConnectionTracker where
  clients : List (Addr × ClientRec)
  max_connections : Nat
  rate_limit_window : Nat
  max_requests : Nat
  active_connections : Int
  block_duration : Nat
  blocked_clients : List (Addr × ℚ)
deriving DecidableEq, Repr

namespace ConnectionTracker

/-- `__init__`: empty maps, zero active connections. -/
def init (max_connections rate_limit_window max_requests block_duration : Nat) :
    ConnectionTracker :=
  { clients := [], max_connections := max_connections,
    rate_limit_window := rate_limit_window, max_requests := max_requests,
    active_connections := 0, block_duration := block_duration,
    blocked_clients := [] }

/-- `_cleanup()`: purge client records unseen for more than five minutes
(decrementing the counter for each purged record still marked
authenticated) and blocks whose expiry has passed. -/
def cleanup (s : ConnectionTracker) (now : ℚ) : ConnectionTracker :=
  let expired := s.clients.filter (fun p => decide (now - p.2.last_seen > 300))
  let kept := s.clients.filter (fun p => !decide (now - p.2.last_seen > 300))
  let dec := (expired.filter (fun p => p.2.authenticated)).length
  { s with
    clients := kept,
    active_connections := s.active_connections - dec,
    blocked_clients := s.blocked_clients.filter (fun p => !decide (now > p.2)) }

/-- `can_connect(addr)`: run `_cleanup`, then compare the active-connection
counter against the maximum.  The address argument is ignored by the
source. -/
def can_connect (s : ConnectionTracker) (now : ℚ) (_addr : Addr) :
    Bool × ConnectionTracker :=
  let s' := cleanup s now
  (decide (s'.active_connections < (s'.max_connections : Int)), s')

/-- The body of `is_rate_limited` after the blocked-client check: fetch (or
lazily create) the record, prune requests older than the window, append
`now`, and block when the count exceeds `max_requests`. -/
def rateCore (s : ConnectionTracker) (now : ℚ) (addr : Addr) :
    Bool × ConnectionTracker :=
  let rec0 := (List.lookup addr s.clients).getD (ClientRec.fresh now)
  let kept := rec0.last_requests.filter (fun t => decide (now - t < (s.rate_limit_window : ℚ)))
  let reqs := kept ++ [now]
  let rec1 : ClientRec :=
    { last_seen := now, authenticated := rec0.authenticated, last_requests := reqs }
  let s' := { s with clients := alistSet s.clients addr rec1 }
  if reqs.length > s.max_requests then
    (true, { s' with blocked_clients := alistSet s'.blocked_clients addr (now + (s.block_duration : ℚ)) })
  else
    (false, s')

/-- `is_rate_limited(addr)`: cleanup; inside an active block return true
without recording anything; an expired block is deleted before the request
is recorded and counted. -/
def is_rate_limited (s : ConnectionTracker) (now : ℚ) (addr : Addr) :
    Bool × ConnectionTracker :=
  let s₁ := cleanup s now
  match List.lookup addr s₁.blocked_clients with
  | some expiry =>
      if now < expiry then (true, s₁)
      else rateCore { s₁ with blocked_clients := alistErase s₁.blocked_clients addr } now addr
  | none => rateCore s₁ now addr

/-- `is_blocked(addr)`: cleanup, then report whether an unexpired block
exists.  No request is recorded. -/
def is_blocked (s : ConnectionTracker) (now : ℚ) (addr : Addr) :
    Bool × ConnectionTracker :=
  let s' := cleanup s now
  match List.lookup addr s'.blocked_clients with
  | some expiry => (decide (now < expiry), s')
  | none => (false, s')

/-- `authenticate(addr)`: the `defaultdict` access creates the record if
missing; the counter is incremented only when the record was not already
authenticated. -/
def authenticate (s : ConnectionTracker) (now : ℚ) (addr : Addr) :
    ConnectionTracker :=
  let rec0 := (List.lookup addr s.clients).getD (ClientRec.fresh now)
  let active := if rec0.authenticated then s.active_connections else s.active_connections + 1
  { s with
    clients := alistSet s.clients addr { rec0 with authenticated := true, last_seen := now },
    active_connections := active }

/-- `disconnect(addr)`: only an existing, authenticated record decrements
the counter and is marked unauthenticated. -/
def disconnect (s : ConnectionTracker) (addr : Addr) : ConnectionTracker :=
  match List.lookup addr s.clients with
  | some rec0 =>
      if rec0.authenticated then
        { s with
          active_connections := s.active_connections - 1,
          clients := alistSet s.clients addr { rec0 with authenticated := false } }
      else s
  | none => s

end ConnectionTracker

/-! ## TCP framing (src/padrelay/protocol/tcp.py, TCPProtocolHandler) -/

/-- `MAX_MESSAGE_SIZE` (src/padrelay/protocol/constants.py). -/
def MAX_MESSAGE_SIZE : Nat := 4096

/-- `struct.unpack(">I", header)[0]`: 4-byte big-endian unsigned integer. -/
def beU32 : List Nat → Nat
  | [b0, b1, b2, b3] => ((b0 * 256 + b1) * 256 + b2) * 256 + b3
  | _ => 0

/-- The distinct ways `read_message` terminates.  Each exception branch in
the source logs a different record before returning `None`:
`closed` is `asyncio.IncompleteReadError` (debug "Connection closed"),
`decodeError` is `json.JSONDecodeError`/`struct.error` (error "Error
decoding message: ..."), `tooLarge` is the raised `ValueError` landing in
the generic `except Exception` branch (warning "Message too large" then
error "Unexpected error reading message: ..."). -/
inductive ReadOutcome where
  | closed
  | decodeError
  | tooLarge
  | ok (v : PyVal)

/-- The log line each non-`ok` branch of `read_message` emits (static text
of the format string, without the interpolated exception). -/
def ReadOutcome.logLine : ReadOutcome → Option String
  | .closed => some "Connection closed"
  | .decodeError => some "Error decoding message"
  | .tooLarge => some "Unexpected error reading message"
  | .ok _ => none

/-- `read_message` with its branch made explicit.  The byte stream the
`StreamReader` will deliver before EOF is `stream`; `readexactly n` raises
`IncompleteReadError` when fewer than `n` bytes remain.  `jsonLoads`
stands for `json.loads(data.decode("utf-8"))`, `none` meaning the body
failed to parse. -/
def readMessageOutcome (jsonLoads : List Nat → Option PyVal)
    (stream : List Nat) : ReadOutcome :=
  if stream.length < 4 then .closed
  else
    let msg_length := beU32 (stream.take 4)
    if msg_length > MAX_MESSAGE_SIZE then .tooLarge
    else if (stream.drop 4).length < msg_length then .closed
    else
      match jsonLoads ((stream.drop 4).take msg_length) with
      | some v => .ok v
      | none => .decodeError

/-- The value `read_message` actually returns to its caller: the decoded
message on success and `None` on every failure branch. -/
def read_message (jsonLoads : List Nat → Option PyVal) (stream : List Nat) :
    Option PyVal :=
  match readMessageOutcome jsonLoads stream with
  | .ok v => some v
  | _ => none

/-- `message.get("type") == ty` for a string tag. -/
def msgTypeIs (m : Msg) (ty : String) : Bool :=
  match dictGet m "type" with
  | some (.str t) => decide (t = ty)
  | _ => false

/-- `message.get("protocol_version") == "1.0"`. -/
def msgVersionOK (m : Msg) : Bool :=
  match dictGet m "protocol_version" with
  | some (.str v) => decide (v = "1.0")
  | _ => false

/-! ## UDP server handler (src/padrelay/protocol/udp.py,
UDPServerProtocol.datagram_received) -/

/-- Observable sends/forwards of one datagram. -/
inductive UdpEffect where
  | sendAuthParams (salt : Option String) (iterations : Int)
  | sendHeartbeatAck
  | processInput (m : Msg)

/-- The `auth_params_request` special case: reply with the stored salt and
iterations only when the server authenticator is hash-only
(`password_plain is None` and a truthy `password_hash`). -/
def udpParamsReply : Option Authenticator → List UdpEffect
  | some a =>
      let hashTruthy : Bool := match a.password_hash with
        | some h => decide (h ≠ "")
        | none => false
      if decide (a.password_plain = none) && hashTruthy then
        [.sendAuthParams a.salt a.iterations]
      else []
  | none => []

/-- Per-message token authentication: open when no authenticator is
configured. -/
def udpAuthOK (c : Crypto) (t : Int) (m : Msg) : Option Authenticator → Bool
  | some a => Authenticator.authenticate_udp c a m t
  | none => true

/-- The dispatch of `datagram_received` after rate limiting and JSON
decoding succeeded, for a decoded dict `m`. -/
def udpDispatch (c : Crypto) (auth : Option Authenticator) (t : Int)
    (m : Msg) : List UdpEffect :=
  -- protocol version mismatch: drop
  if !msgVersionOK m then []
  -- auth_params_request: reply only in hash-only mode, before authentication
  else if msgTypeIs m "auth_params_request" then udpParamsReply auth
  else if !udpAuthOK c t m auth then []
  else if msgTypeIs m "heartbeat" then [.sendHeartbeatAck]
  else if msgTypeIs m "input" then
    if validate_input_message m then [.processInput m] else []
  else []

/-- `datagram_received(data, addr)`: rate limiting (an `is_blocked` probe
followed by `is_rate_limited`, the flag only controlling the log), JSON
decoding, then `udpDispatch`.  A datagram whose JSON decodes to a non-dict
raises `AttributeError` out of the callback (the event loop logs it), so
it produces no effects.  Returns the effects and the tracker state after
the rate-limiting calls. -/
def datagram_received (c : Crypto) (auth : Option Authenticator)
    (tracker : Option ConnectionTracker)
    (jsonLoads : List Nat → Option PyVal) (now : ℚ) (t : Int)
    (data : List Nat) (addr : Addr) :
    List UdpEffect × Option ConnectionTracker :=
  let step : Bool × Option ConnectionTracker :=
    match tracker with
    | some tr =>
        let r₁ := tr.is_blocked now addr
        let r₂ := r₁.2.is_rate_limited now addr
        (r₂.1, some r₂.2)
    | none => (false, none)
  if step.1 then ([], step.2)
  else
    match jsonLoads data with
    | none => ([], step.2)
    | some (.dict m) => (udpDispatch c auth t m, step.2)
    | some _ => ([], step.2)

/-! ## TCP server session handler (src/padrelay/server/server_app.py,
VirtualGamepadServer._handle_tcp_client) -/

/-- Observable sends/forwards of one TCP session. -/
inductive TcpEffect where
  | sendError (message : String)
  | sendAuthChallenge (challenge : String)
  | sendAuthFailed
  | sendAuthSuccess
  | sendHeartbeatAck
  | processInput (m : Msg)

/-- The message-processing loop of `_handle_tcp_client` (lines 352-400).
`msgs` is the sequence of `read_message` results; `none` (a failed read or
timeout) or a falsy message breaks the loop.  `vc` is
`validation_counter`: an input message is validated only when the counter
reaches `validation_interval = 10`, and forwarded unvalidated otherwise.
The shutdown flag is taken as unset for the processed prefix. -/
def tcpStreamLoop : List (Option Msg) → Nat → List TcpEffect
  | [], _ => []
  | none :: _, _ => []
  | some m :: rest, vc =>
      if m.isEmpty then []
      else if msgTypeIs m "heartbeat" then
        .sendHeartbeatAck :: tcpStreamLoop rest vc
      else if msgTypeIs m "input" then
        if vc + 1 ≥ 10 then
          if validate_input_message m then
            .processInput m :: tcpStreamLoop rest 0
          else
            tcpStreamLoop rest 0
        else
          .processInput m :: tcpStreamLoop rest (vc + 1)
      else tcpStreamLoop rest vc

/-- HMAC verification of the `response` field: a non-string value makes
`hmac.compare_digest` raise, which the enclosing `except` turns into a
silent close (no effect). -/
def tcpVerifyPhase (c : Crypto) (auth : Authenticator) (challenge : String)
    (msgs : List (Option Msg)) : Option PyVal → List TcpEffect
  | some (.str resp) =>
      if !(auth.verify_tcp_response c challenge resp) then
        [.sendAuthFailed]
      else
        .sendAuthSuccess :: tcpStreamLoop msgs 0
  | _ => []

/-- The challenge-response wait of `_handle_tcp_client`: `none` is a failed
read or the 5s timeout; a falsy message closes; a malformed reply draws an
error message; otherwise the `response` field is verified. -/
def tcpAuthPhase (c : Crypto) (auth : Authenticator) (challenge : String)
    (msgs : List (Option Msg)) : Option Msg → List TcpEffect
  | none => []
  | some r =>
      if r.isEmpty then []
      else if !msgVersionOK r || !msgTypeIs r "auth_response"
          || !(dictGet r "response").isSome then
        [.sendError "Invalid authentication response"]
      else tcpVerifyPhase c auth challenge msgs (dictGet r "response")

/-- `_handle_tcp_client`: connection-limit gate, optional challenge-response
authentication (`challenge` stands for `secrets.token_hex(16)`,
`authResponse` for the reply read within the 5s timeout), then the
streaming loop. -/
def handleTcpClient (c : Crypto) (tracker : ConnectionTracker) (now : ℚ)
    (addr : Addr) (auth : Authenticator) (password : String)
    (challenge : String) (authResponse : Option Msg)
    (msgs : List (Option Msg)) : List TcpEffect :=
  if !(tracker.can_connect now addr).1 then
    [.sendError "Another client is already connected."]
  else if password ≠ "" then
    .sendAuthChallenge challenge :: tcpAuthPhase c auth challenge msgs authResponse
  else tcpStreamLoop msgs 0

/-! ## Run functions and concrete instances used in the statements below -/

/-- Repeatedly call `is_rate_limited` for one address at the given times,
collecting the results and threading the tracker state. -/
def rateRun (addr : Addr) : ConnectionTracker → List ℚ → List Bool × ConnectionTracker
  | s, [] => ([], s)
  | s, t :: ts =>
      let r := s.is_rate_limited t addr
      let rest := rateRun addr r.2 ts
      (r.1 :: rest.1, rest.2)

/-- The tracker state in the middle of a rapid-succession run: one record
for the probed address, nothing else. -/
def midState (mc w mr bd : Nat) (addr : Addr) (reqs : List ℚ) (seen : ℚ) :
    ConnectionTracker :=
  { clients := [(addr, { last_seen := seen, authenticated := false, last_requests := reqs })],
    max_connections := mc, rate_limit_window := w, max_requests := mr,
    active_connections := 0, block_duration := bd, blocked_clients := [] }

/-- Authenticator states reachable by construction and any number of
`set_parameters` calls. -/
inductive Reached (c : Crypto) : Authenticator → Prop where
  | init : ∀ freshSalt password a, Authenticator.init c freshSalt password = some a →
      Reached c a
  | set_params : ∀ a salt iterations, Reached c a →
      Reached c (Authenticator.set_parameters c a salt iterations)

/-- A concrete stand-in for the external primitives, used to instantiate
the parametric theorems on computable inputs. -/
def cryptoW : Crypto :=
  { hmacSha256 := fun k m => k ++ "#" ++ m,
    pbkdf2Sha256 := fun p s i => p ++ "/" ++ s ++ "/" ++ toString i }

/-- A plaintext-password authenticator over `cryptoW`. -/
def authPlainW : Authenticator :=
  { password_plain := some "pw", salt := some "salt", iterations := 100000,
    password_hash := some (cryptoW.pbkdf2Sha256 "pw" "salt" 100000) }

/-- A concrete client address. -/
def addrW : Addr := ("127.0.0.1", 50000)

/-- A second, distinct client address. -/
def otherW : Addr := ("10.0.0.2", 50001)

/-- A fresh tracker: limit 1 connection, 60s window, 100 requests, 600s
blocks. -/
def trackerW : ConnectionTracker := ConnectionTracker.init 1 60 100 600

/-- A structurally invalid input message: one axis value of 2. -/
def badInputW : Msg :=
  [("protocol_version", .str "1.0"), ("type", .str "input"),
   ("buttons", .list []), ("axes", .list [.num 2])]

/-- The rational one half, written in normal form so that comparisons on it
reduce. -/
def halfQ : ℚ := Rat.mk' 1 2 (by decide) (Nat.coprime_one_left 2)

/-- A structurally valid input message. -/
def goodInputW : Msg :=
  [("protocol_version", .str "1.0"), ("type", .str "input"),
   ("buttons", .list [.pybool true]), ("axes", .list [.num halfQ])]

/-- The correct auth response for `authPlainW` and challenge `"ch"`. -/
def authRespW : Msg :=
  [("protocol_version", .str "1.0"), ("type", .str "auth_response"),
   ("response", .str (Authenticator.generate_tcp_response cryptoW authPlainW "ch"))]

/-- A decoder that always yields `goodInputW`. -/
def jlGoodW : List Nat → Option PyVal := fun _ => some (.dict goodInputW)

/-- A decoder that always fails (malformed JSON). -/
def jlNoneW : List Nat → Option PyVal := fun _ => none

/-- The input message whose hats carry the fractional component 1/2. -/
def hatHalfW : Msg :=
  [("type", .str "input"), ("buttons", .list []), ("axes", .list []),
   ("hats", .list [.tuple [.num halfQ, .num halfQ]])]

/-- A tracker state with one authenticated client record. -/
def sAuthW : ConnectionTracker :=
  { clients := [(addrW, { last_seen := 0, authenticated := true, last_requests := [] })],
    max_connections := 1, rate_limit_window := 60, max_requests := 100,
    active_connections := 1, block_duration := 600, blocked_clients := [] }

/-! ## Theorems -/

/-- Looking up the key just written by `alistSet` returns the new value. -/
theorem alistSet_lookup_self {β : Type} (l : List (Addr × β)) (a : Addr) (v : β) :
    List.lookup a (alistSet l a v) = some v := by
  induction l with
  | nil => simp [alistSet, List.lookup]
  | cons p t ih =>
      obtain ⟨k, w⟩ := p
      by_cases hk : k = a
      · simp [alistSet, hk, List.lookup]
      · have : (a == k) = false := by
          simp [beq_iff_eq]
          exact fun h => hk h.symm
        simp [alistSet, hk, List.lookup, this, ih]

/-- Looking up a different key after `alistSet` sees the old list. -/
theorem alistSet_lookup_ne {β : Type} (l : List (Addr × β)) (a b : Addr) (v : β)
    (hab : b ≠ a) : List.lookup b (alistSet l a v) = List.lookup b l := by
  induction l with
  | nil =>
      have : (b == a) = false := by
        simp [beq_iff_eq]
        exact hab
      simp [alistSet, List.lookup, this]
  | cons p t ih =>
      obtain ⟨k, w⟩ := p
      by_cases hk : k = a
      · subst hk
        have : (b == k) = false := by
          simp [beq_iff_eq]
          exact hab
        simp [alistSet, List.lookup, this]
      · simp [alistSet, hk, List.lookup, ih]

/-- `rateCore` always records the current request as the last entry of the
address's window. -/
theorem rateCore_records (s : ConnectionTracker) (now : ℚ) (addr : Addr) :
    ∃ r : ClientRec,
      List.lookup addr ((ConnectionTracker.rateCore s now addr).2).clients = some r
      ∧ r.last_requests.getLast? = some now := by
  simp only [ConnectionTracker.rateCore]
  split
  · exact ⟨_, alistSet_lookup_self .., by simp⟩
  · exact ⟨_, alistSet_lookup_self .., by simp⟩

/-- `set_parameters` never touches the retained plaintext. -/
theorem Authenticator.set_parameters_plain (c : Crypto) (a : Authenticator)
    (salt : String) (iterations : Int) :
    (Authenticator.set_parameters c a salt iterations).password_plain
      = a.password_plain := by
  unfold Authenticator.set_parameters
  cases hc : a.password_plain with
  | none => rfl
  | some q =>
      by_cases hq : q ≠ "" <;> simp [hq]

/-- C2: with shared key material, the TCP challenge-response round-trips:
`verify_tcp_response(challenge, generate_tcp_response(challenge))` holds
between any two authenticators whose effective key
(`password_hash or password_plain`) is the same string, and any other
response string (in particular, one with a flipped bit) is rejected. -/
theorem c2_tcp_challenge_response (c : Crypto) (a b : Authenticator)
    (k : String) (hka : a.tcpKey = some k) (hkb : b.tcpKey = some k)
    (challenge : String) :
    Authenticator.verify_tcp_response c a challenge
        (Authenticator.generate_tcp_response c b challenge) = true
    ∧ ∀ r : String, r ≠ Authenticator.generate_tcp_response c b challenge →
        Authenticator.verify_tcp_response c a challenge r = false := by
  have hgen : Authenticator.generate_tcp_response c b challenge
      = c.hmacSha256 k challenge := by
    unfold Authenticator.generate_tcp_response
    rw [hkb]
  have hver : ∀ r, Authenticator.verify_tcp_response c a challenge r
      = decide (r = c.hmacSha256 k challenge) := by
    intro r
    unfold Authenticator.verify_tcp_response
    rw [hka]
  refine ⟨?_, ?_⟩
  · rw [hgen, hver]
    simp
  · intro r hr
    rw [hgen] at hr
    rw [hver]
    simp [hr]

/-- Closed instance of `c2_tcp_challenge_response` on the concrete
authenticator `authPlainW`. -/
theorem c2_tcp_challenge_response_witness :
    Authenticator.verify_tcp_response cryptoW authPlainW "ch"
        (Authenticator.generate_tcp_response cryptoW authPlainW "ch") = true
    ∧ Authenticator.verify_tcp_response cryptoW authPlainW "ch" "bogus" = false := by
  have h := c2_tcp_challenge_response cryptoW authPlainW authPlainW
    "pw/salt/100000" rfl rfl "ch"
  exact ⟨h.1, h.2 "bogus" (by decide)⟩

/-- C8: `validate_input_message` accepts a message whose hat components are
the fraction 1/2, although 1/2 is not in {-1, 0, 1}.  The code checks the
interval `-1 <= x <= 1` where its own comment (and the spec's data model)
require the set {-1, 0, 1}. -/
theorem c8_hat_validation_accepts_fractional :
    validate_input_message hatHalfW = true
    ∧ ¬(halfQ = -1 ∨ halfQ = 0 ∨ halfQ = 1) :=
  ⟨by decide, by decide⟩

/-- C9: on every authenticator reachable by construction and
`set_parameters` calls, if a plaintext password is retained then the stored
hash is PBKDF2 of that plaintext under the stored salt and iteration
count. -/
theorem c9_credential_invariant (c : Crypto) (a : Authenticator)
    (h : Reached c a) :
    ∀ p, a.password_plain = some p →
      p ≠ "" ∧ ∃ s, a.salt = some s ∧
        a.password_hash = some (c.pbkdf2Sha256 p s a.iterations) := by
  induction h with
  | init freshSalt password a h =>
      intro p hp
      cases password with
      | none =>
          simp only [Authenticator.init, Option.some.injEq] at h
          subst h
          simp [Authenticator.base] at hp
      | some pw =>
          simp only [Authenticator.init] at h
          by_cases hpw : pw = ""
          · rw [if_pos hpw] at h
            simp only [Option.some.injEq] at h
            subst h
            simp [Authenticator.base] at hp
          · rw [if_neg hpw] at h
            by_cases hh : Authenticator.is_hash_string pw = true
            · rw [if_pos hh] at h
              cases hps : Authenticator.parse_hash_string pw with
              | none => rw [hps] at h; cases h
              | some v =>
                  rw [hps] at h
                  obtain ⟨it, s', h'⟩ := v
                  simp only [Option.some.injEq] at h
                  subst h
                  simp at hp
            · rw [if_neg hh] at h
              simp only [Option.some.injEq] at h
              subst h
              simp only [Option.some.injEq] at hp
              subst hp
              exact ⟨hpw, freshSalt, rfl, rfl⟩
  | set_params a salt iterations hr ih =>
      intro p hp
      rw [Authenticator.set_parameters_plain] at hp
      obtain ⟨hne, s₀, hs₀, hh₀⟩ := ih p hp
      refine ⟨hne, salt, ?_, ?_⟩ <;>
        simp [Authenticator.set_parameters, hp, hne]

/-- Closed instance of `c9_credential_invariant` after a `set_parameters`
call on the concrete plaintext authenticator. -/
theorem c9_credential_invariant_witness :
    ("pw" : String) ≠ "" ∧ ∃ s,
      (Authenticator.set_parameters cryptoW authPlainW "s2" 5).salt = some s ∧
      (Authenticator.set_parameters cryptoW authPlainW "s2" 5).password_hash
        = some (cryptoW.pbkdf2Sha256 "pw" s
            (Authenticator.set_parameters cryptoW authPlainW "s2" 5).iterations) :=
  c9_credential_invariant cryptoW _
    (Reached.set_params _ "s2" 5 (Reached.init "salt" (some "pw") _ rfl)) "pw" rfl

/-- Stepping one TTL back moves the floor-division window back by one. -/
theorem fdiv_sub_ttl (t : Int) : (t - 60).fdiv 60 = t.fdiv 60 - 1 := by
  rw [Int.fdiv_eq_ediv _ (by norm_num), Int.fdiv_eq_ediv _ (by norm_num)]
  have h : t - 60 = t + (-1) * 60 := by ring
  rw [h, Int.add_mul_ediv_right _ _ (by norm_num : (60 : Int) ≠ 0)]
  ring

/-- With key material, `generate_udp_token` is the HMAC of the window
message. -/
theorem generate_udp_token_key (c : Crypto) (a : Authenticator) (k : String)
    (hk : a.udpKey = some k) (t : Int) :
    Authenticator.generate_udp_token c a t
      = some (c.hmacSha256 k (Authenticator.udpWindowMsg (t.fdiv 60))) := by
  unfold Authenticator.generate_udp_token
  rw [hk]
  rfl

/-- C3: with key material, UDP tokens are stable inside one 60-second
window; distinct-window tokens differ whenever the HMAC values of the two
window messages differ (HMAC is external, so its collision-freedom on the
window messages is a hypothesis); `authenticate_udp` accepts exactly the
tokens of the current and the immediately preceding window, and rejects
the token of a window two or more steps back (again given that it does
not collide with the two accepted tokens). -/
theorem c3_udp_token_windows (c : Crypto) (a : Authenticator) (k : String)
    (hk : a.udpKey = some k) :
    (∀ t₁ t₂ : Int, t₁.fdiv 60 = t₂.fdiv 60 →
        Authenticator.generate_udp_token c a t₁
          = Authenticator.generate_udp_token c a t₂)
    ∧ (∀ t₁ t₂ : Int,
        c.hmacSha256 k (Authenticator.udpWindowMsg (t₁.fdiv 60))
          ≠ c.hmacSha256 k (Authenticator.udpWindowMsg (t₂.fdiv 60)) →
        Authenticator.generate_udp_token c a t₁
          ≠ Authenticator.generate_udp_token c a t₂)
    ∧ (∀ t : Int, ∀ tok : String, tok ≠ "" →
        (tok = c.hmacSha256 k (Authenticator.udpWindowMsg (t.fdiv 60)) ∨
         tok = c.hmacSha256 k (Authenticator.udpWindowMsg (t.fdiv 60 - 1))) →
        Authenticator.authenticate_udp c a [("auth_token", PyVal.str tok)] t = true)
    ∧ (∀ t j : Int, 2 ≤ j →
        c.hmacSha256 k (Authenticator.udpWindowMsg (t.fdiv 60 - j))
          ≠ c.hmacSha256 k (Authenticator.udpWindowMsg (t.fdiv 60)) →
        c.hmacSha256 k (Authenticator.udpWindowMsg (t.fdiv 60 - j))
          ≠ c.hmacSha256 k (Authenticator.udpWindowMsg (t.fdiv 60 - 1)) →
        Authenticator.authenticate_udp c a
          [("auth_token",
            PyVal.str (c.hmacSha256 k (Authenticator.udpWindowMsg (t.fdiv 60 - j))))] t
          = false) := by
  have hgen : ∀ t : Int, Authenticator.generate_udp_token c a t
      = some (c.hmacSha256 k (Authenticator.udpWindowMsg (t.fdiv 60))) :=
    generate_udp_token_key c a k hk
  have hauth : ∀ t : Int, ∀ tok : String,
      Authenticator.authenticate_udp c a [("auth_token", PyVal.str tok)] t
        = if tok = "" then false
          else (decide (tok = c.hmacSha256 k (Authenticator.udpWindowMsg (t.fdiv 60))) ||
                decide (tok = c.hmacSha256 k (Authenticator.udpWindowMsg (t.fdiv 60 - 1)))) := by
    intro t tok
    have hget : dictGet [("auth_token", PyVal.str tok)] "auth_token"
        = some (PyVal.str tok) := rfl
    simp only [Authenticator.authenticate_udp, hk, hget,
      Authenticator.UDP_TOKEN_TTL]
    simp only [hgen, fdiv_sub_ttl, Option.some.injEq]
  refine ⟨?_, ?_, ?_, ?_⟩
  · intro t₁ t₂ hw
    rw [hgen t₁, hgen t₂, hw]
  · intro t₁ t₂ hne
    rw [hgen t₁, hgen t₂]
    simp only [ne_eq, Option.some.injEq]
    exact hne
  · intro t tok hne htok
    rw [hauth, if_neg hne]
    rcases htok with h | h <;> simp [h]
  · intro t j _ h1 h2
    rw [hauth]
    by_cases he : c.hmacSha256 k (Authenticator.udpWindowMsg (t.fdiv 60 - j)) = ""
    · rw [if_pos he]
    · rw [if_neg he]
      simp [h1, h2]

/-- Closed instance of `c3_udp_token_windows` at time 150 (window 2) over
the concrete crypto: same-window stability, acceptance of windows 2 and 1,
rejection of window 0. -/
theorem c3_udp_token_windows_witness :
    Authenticator.generate_udp_token cryptoW authPlainW 150
      = Authenticator.generate_udp_token cryptoW authPlainW 179
    ∧ Authenticator.authenticate_udp cryptoW authPlainW
        [("auth_token", PyVal.str (cryptoW.hmacSha256 "pw"
          (Authenticator.udpWindowMsg ((150 : Int).fdiv 60))))] 150 = true
    ∧ Authenticator.authenticate_udp cryptoW authPlainW
        [("auth_token", PyVal.str (cryptoW.hmacSha256 "pw"
          (Authenticator.udpWindowMsg ((150 : Int).fdiv 60 - 1))))] 150 = true
    ∧ Authenticator.authenticate_udp cryptoW authPlainW
        [("auth_token", PyVal.str (cryptoW.hmacSha256 "pw"
          (Authenticator.udpWindowMsg ((150 : Int).fdiv 60 - 2))))] 150 = false := by
  have h := c3_udp_token_windows cryptoW authPlainW "pw" rfl
  exact ⟨h.1 150 179 (by decide),
    h.2.2.1 150 _ (by decide) (Or.inl rfl),
    h.2.2.1 150 _ (by decide) (Or.inr rfl),
    h.2.2.2 150 2 (by norm_num) (by decide) (by decide)⟩

/-- C6 counterexample: an `is_blocked` probe on a fresh tracker leaves the
tracker without any record for the probed address, so the check was not
counted as a request. -/
theorem c6_is_blocked_records_nothing :
    ((ConnectionTracker.init 1 60 100 600).is_blocked 0 addrW).2.clients = []
    ∧ ((ConnectionTracker.init 1 60 100 600).is_blocked 0 addrW).1 = false :=
  ⟨rfl, rfl⟩

/-- C6 amended: an `is_rate_limited` check is recorded in the address's
window whenever the address is not inside an active block; `is_blocked`
only runs `_cleanup` and records nothing, and `is_rate_limited` during an
active block also records nothing. -/
theorem c6_rate_checks_recorded :
    (∀ (s : ConnectionTracker) (now : ℚ) (addr : Addr),
        (ConnectionTracker.is_blocked s now addr).2 = ConnectionTracker.cleanup s now)
    ∧ (∀ (s : ConnectionTracker) (now : ℚ) (addr : Addr),
        (∀ e, List.lookup addr (ConnectionTracker.cleanup s now).blocked_clients = some e →
            e ≤ now) →
        ∃ r : ClientRec,
          List.lookup addr ((ConnectionTracker.is_rate_limited s now addr).2).clients = some r
          ∧ r.last_requests.getLast? = some now)
    ∧ (∀ (s : ConnectionTracker) (now : ℚ) (addr : Addr) (e : ℚ),
        List.lookup addr (ConnectionTracker.cleanup s now).blocked_clients = some e →
        now < e →
        (ConnectionTracker.is_rate_limited s now addr).2 = ConnectionTracker.cleanup s now) := by
  refine ⟨?_, ?_, ?_⟩
  · intro s now addr
    simp only [ConnectionTracker.is_blocked]
    cases he : List.lookup addr (ConnectionTracker.cleanup s now).blocked_clients <;>
      simp [he]
  · intro s now addr hb
    simp only [ConnectionTracker.is_rate_limited]
    cases he : List.lookup addr (ConnectionTracker.cleanup s now).blocked_clients with
    | none =>
        simp only [he]
        exact rateCore_records ..
    | some e =>
        simp only [he]
        rw [if_neg (by simpa using hb e he)]
        exact rateCore_records ..
  · intro s now addr e he hlt
    simp only [ConnectionTracker.is_rate_limited, he]
    rw [if_pos hlt]

/-- Closed instance of `c6_rate_checks_recorded`: on a fresh tracker the
`is_rate_limited` check at time 0 is recorded for the address. -/
theorem c6_rate_checks_recorded_witness :
    ∃ r : ClientRec,
      List.lookup addrW
          ((ConnectionTracker.is_rate_limited (ConnectionTracker.init 1 60 100 600) 0 addrW).2).clients
        = some r
      ∧ r.last_requests.getLast? = some 0 :=
  c6_rate_checks_recorded.2.1 (ConnectionTracker.init 1 60 100 600) 0 addrW
    (by intro e he; cases he)

/-- An input-typed message is a non-empty dict and is not heartbeat-typed. -/
theorem msgTypeIs_input_facts (m : Msg) (h : msgTypeIs m "input" = true) :
    m.isEmpty = false ∧ msgTypeIs m "heartbeat" = false := by
  unfold msgTypeIs at *
  cases hg : dictGet m "type" with
  | none => rw [hg] at h; cases h
  | some v =>
      rw [hg] at h
      cases v with
      | str t =>
          simp only [decide_eq_true_eq] at h
          subst h
          constructor
          · cases m with
            | nil => cases hg
            | cons p l => rfl
          · simp
      | pynone => cases h
      | pybool b => cases h
      | num q => cases h
      | list l => cases h
      | tuple l => cases h
      | dict e => cases h

/-- The dispatch step of the UDP handler forwards a message only when it
passed `authenticate_udp` (when an authenticator is configured) and
`validate_input_message`. -/
theorem udpDispatch_gate (c : Crypto) (auth : Option Authenticator) (t : Int)
    (m fwd : Msg) (h : UdpEffect.processInput fwd ∈ udpDispatch c auth t m) :
    (∀ a, auth = some a → Authenticator.authenticate_udp c a fwd t = true)
    ∧ validate_input_message fwd = true := by
  unfold udpDispatch at h
  by_cases hver : msgVersionOK m
  · rw [if_neg (by simp [hver])] at h
    by_cases hreq : msgTypeIs m "auth_params_request"
    · rw [if_pos hreq] at h
      exfalso
      cases auth with
      | none => simp [udpParamsReply] at h
      | some a =>
          simp only [udpParamsReply] at h
          revert h
          split <;> simp
    · rw [if_neg (by simp [hreq])] at h
      by_cases hok : udpAuthOK c t m auth = true
      · rw [if_neg (by simp [hok])] at h
        by_cases hhb : msgTypeIs m "heartbeat"
        · rw [if_pos hhb] at h
          simp at h
        · rw [if_neg (by simp [hhb])] at h
          by_cases hin : msgTypeIs m "input"
          · rw [if_pos hin] at h
            by_cases hval : validate_input_message m
            · rw [if_pos hval] at h
              simp only [List.mem_singleton, UdpEffect.processInput.injEq] at h
              subst h
              refine ⟨?_, hval⟩
              intro a ha
              subst ha
              simpa [udpAuthOK] using hok
            · rw [if_neg hval] at h
              simp at h
          · rw [if_neg (by simp [hin])] at h
            simp at h
      · rw [if_pos (by simpa using hok)] at h
        simp at h
  · rw [if_pos (by simp [hver])] at h
    simp at h

/-- C1 counterexample: over the TCP path, an authenticated session forwards
the very first input message to the gamepad handler even though that
message fails structural validation (axis value 2), because validation
runs only on every tenth input message. -/
theorem c1_tcp_forwards_invalid :
    handleTcpClient cryptoW trackerW 0 addrW authPlainW "pw" "ch"
        (some authRespW) [some badInputW]
      = [TcpEffect.sendAuthChallenge "ch", TcpEffect.sendAuthSuccess,
         TcpEffect.processInput badInputW]
    ∧ validate_input_message badInputW = false :=
  ⟨rfl, by decide⟩

/-- C1 amended: (UDP) a datagram is forwarded to the gamepad handler only
if it passed both token authentication and structural validation; (TCP) a
message is forwarded only inside a session whose challenge-response
verification succeeded whenever a password is configured, but structural
validation runs only when `validation_counter` reaches 10 — at such a
checkpoint an invalid message is dropped, while below the checkpoint the
input message is forwarded unvalidated. -/
theorem c1_forwarding_gates :
    (∀ (c : Crypto) (auth : Option Authenticator)
        (tracker : Option ConnectionTracker)
        (jsonLoads : List Nat → Option PyVal) (now : ℚ) (t : Int)
        (data : List Nat) (addr : Addr) (m : Msg),
        UdpEffect.processInput m
            ∈ (datagram_received c auth tracker jsonLoads now t data addr).1 →
        (∀ a, auth = some a → Authenticator.authenticate_udp c a m t = true)
        ∧ validate_input_message m = true)
    ∧ (∀ (c : Crypto) (tracker : ConnectionTracker) (now : ℚ) (addr : Addr)
        (auth : Authenticator) (password challenge : String)
        (authResponse : Option Msg) (msgs : List (Option Msg)) (m : Msg),
        TcpEffect.processInput m
            ∈ handleTcpClient c tracker now addr auth password challenge
                authResponse msgs →
        password ≠ "" →
        ∃ r resp, authResponse = some r
          ∧ dictGet r "response" = some (PyVal.str resp)
          ∧ Authenticator.verify_tcp_response c auth challenge resp = true)
    ∧ (∀ (m : Msg) (rest : List (Option Msg)) (vc : Nat), 9 ≤ vc →
        msgTypeIs m "input" = true →
        tcpStreamLoop (some m :: rest) vc
          = (if validate_input_message m then [TcpEffect.processInput m] else [])
            ++ tcpStreamLoop rest 0)
    ∧ (∀ (m : Msg) (rest : List (Option Msg)) (vc : Nat), vc < 9 →
        msgTypeIs m "input" = true →
        tcpStreamLoop (some m :: rest) vc
          = TcpEffect.processInput m :: tcpStreamLoop rest (vc + 1)) := by
  refine ⟨?_, ?_, ?_, ?_⟩
  · intro c auth tracker jl now t data addr m hm
    unfold datagram_received at hm
    cases tracker with
    | none =>
        simp only [if_neg] at hm
        cases hj : jl data with
        | none => rw [hj] at hm; simp at hm
        | some v =>
            rw [hj] at hm
            cases v with
            | dict md => exact udpDispatch_gate c auth t md m (by simpa using hm)
            | pynone => simp at hm
            | pybool b => simp at hm
            | num q => simp at hm
            | str s => simp at hm
            | list l => simp at hm
            | tuple l => simp at hm
    | some tr =>
        by_cases hlim : ((tr.is_blocked now addr).2.is_rate_limited now addr).1
        · rw [if_pos (by simpa using hlim)] at hm
          simp at hm
        · rw [if_neg (by simpa using hlim)] at hm
          cases hj : jl data with
          | none => rw [hj] at hm; simp at hm
          | some v =>
              rw [hj] at hm
              cases v with
              | dict md => exact udpDispatch_gate c auth t md m (by simpa using hm)
              | pynone => simp at hm
              | pybool b => simp at hm
              | num q => simp at hm
              | str s => simp at hm
              | list l => simp at hm
              | tuple l => simp at hm
  · intro c tracker now addr auth password challenge authResponse msgs m hm hpw
    unfold handleTcpClient at hm
    by_cases hcc : (tracker.can_connect now addr).1
    · rw [if_neg (by simp [hcc])] at hm
      rw [if_pos hpw] at hm
      cases authResponse with
      | none => simp [tcpAuthPhase] at hm
      | some r =>
          rcases List.mem_cons.mp hm with heq | hm'
          · cases heq
          · simp only [tcpAuthPhase] at hm'
            by_cases hre : r.isEmpty
            · rw [if_pos hre] at hm'
              simp at hm'
            · rw [if_neg (by simp [hre])] at hm'
              by_cases hfmt : (!msgVersionOK r || !msgTypeIs r "auth_response"
                  || !(dictGet r "response").isSome) = true
              · rw [if_pos hfmt] at hm'
                simp at hm'
              · rw [if_neg hfmt] at hm'
                cases hresp : dictGet r "response" with
                | none =>
                    rw [hresp] at hm'
                    simp [tcpVerifyPhase] at hm'
                | some v =>
                    rw [hresp] at hm'
                    cases v with
                    | str resp =>
                        by_cases hv : Authenticator.verify_tcp_response c auth
                            challenge resp
                        · exact ⟨r, resp, rfl, hresp, hv⟩
                        · simp only [tcpVerifyPhase] at hm'
                          rw [if_pos (by simp [hv])] at hm'
                          simp at hm'
                    | pynone => simp [tcpVerifyPhase] at hm'
                    | pybool b => simp [tcpVerifyPhase] at hm'
                    | num q => simp [tcpVerifyPhase] at hm'
                    | list l => simp [tcpVerifyPhase] at hm'
                    | tuple l => simp [tcpVerifyPhase] at hm'
                    | dict e => simp [tcpVerifyPhase] at hm'
    · rw [if_pos (by simp [hcc])] at hm
      simp at hm
  · intro m rest vc hvc hty
    obtain ⟨hemp, hhb⟩ := msgTypeIs_input_facts m hty
    simp only [tcpStreamLoop, hemp, hhb, hty]
    rw [if_neg (by simp), if_neg (by simp), if_pos (by simp),
      if_pos (show vc + 1 ≥ 10 by omega)]
    by_cases hv : validate_input_message m <;> simp [hv]
  · intro m rest vc hvc hty
    obtain ⟨hemp, hhb⟩ := msgTypeIs_input_facts m hty
    simp only [tcpStreamLoop, hemp, hhb, hty]
    rw [if_neg (by simp), if_neg (by simp), if_pos (by simp),
      if_neg (show ¬(vc + 1 ≥ 10) by omega)]

/-- Closed instance of `c1_forwarding_gates`: the forwarded UDP message
passed validation; the concrete authenticated TCP session exhibits a
verified auth response; checkpoint and non-checkpoint loop behavior at
counter values 9 and 0. -/
theorem c1_forwarding_gates_witness :
    validate_input_message goodInputW = true
    ∧ (∃ r resp, some authRespW = some r
        ∧ dictGet r "response" = some (PyVal.str resp)
        ∧ Authenticator.verify_tcp_response cryptoW authPlainW "ch" resp = true)
    ∧ tcpStreamLoop [some badInputW] 9
        = (if validate_input_message badInputW
            then [TcpEffect.processInput badInputW] else [])
          ++ tcpStreamLoop [] 0
    ∧ tcpStreamLoop [some badInputW] 0
        = TcpEffect.processInput badInputW :: tcpStreamLoop [] 1 := by
  refine ⟨?_, ?_, ?_, ?_⟩
  · exact (c1_forwarding_gates.1 cryptoW none none jlGoodW 0 0 [] addrW goodInputW
      (by
        have h : (datagram_received cryptoW none none jlGoodW 0 0 [] addrW).1
            = [UdpEffect.processInput goodInputW] := rfl
        rw [h]
        exact List.mem_singleton_self _)).2
  · exact c1_forwarding_gates.2.1 cryptoW trackerW 0 addrW authPlainW "pw" "ch"
      (some authRespW) [some badInputW] badInputW
      (by
        have h : handleTcpClient cryptoW trackerW 0 addrW authPlainW "pw" "ch"
            (some authRespW) [some badInputW]
            = [TcpEffect.sendAuthChallenge "ch", TcpEffect.sendAuthSuccess,
               TcpEffect.processInput badInputW] := rfl
        rw [h]
        simp)
      (by decide)
  · exact c1_forwarding_gates.2.2.1 badInputW [] 9 (by norm_num) (by decide)
  · exact c1_forwarding_gates.2.2.2 badInputW [] 0 (by norm_num) (by decide)

/-- One `is_rate_limited` call on the one-record state of a rapid run:
nothing is pruned or purged, the request is appended, and the result is
blocked exactly when the new count exceeds `max_requests`. -/
theorem midState_step (mc w mr bd : Nat) (addr : Addr) (reqs : List ℚ)
    (seen now : ℚ) (hseen : now - seen ≤ 300)
    (hreqs : ∀ r ∈ reqs, now - r < (w : ℚ)) :
    ConnectionTracker.is_rate_limited (midState mc w mr bd addr reqs seen) now addr
      = (decide (reqs.length + 1 > mr),
         if reqs.length + 1 > mr then
           { midState mc w mr bd addr (reqs ++ [now]) now with
               blocked_clients := [(addr, now + (bd : ℚ))] }
         else midState mc w mr bd addr (reqs ++ [now]) now) := by
  have hkeep : ¬(now - seen > 300) := not_lt.mpr hseen
  have hclean : ConnectionTracker.cleanup (midState mc w mr bd addr reqs seen) now
      = midState mc w mr bd addr reqs seen := by
    simp [ConnectionTracker.cleanup, midState, hkeep]
  have hfilter : reqs.filter (fun t => decide (now - t < (w : ℚ))) = reqs :=
    List.filter_eq_self.mpr (fun r hr => decide_eq_true (hreqs r hr))
  simp only [ConnectionTracker.is_rate_limited, hclean]
  have hblocked : List.lookup addr (midState mc w mr bd addr reqs seen).blocked_clients
      = none := rfl
  rw [hblocked]
  simp only [ConnectionTracker.rateCore, midState]
  have hlook : List.lookup addr
      [(addr, { last_seen := seen, authenticated := false, last_requests := reqs : ClientRec })]
      = some { last_seen := seen, authenticated := false, last_requests := reqs : ClientRec } := by
    simp [List.lookup]
  simp only [hlook, Option.getD_some, hfilter]
  by_cases hthr : reqs.length + 1 > mr
  · simp [hthr, alistSet, midState]
  · simp [hthr, alistSet, midState]

/-- The first `is_rate_limited` call on a fresh tracker behaves like a call
on the one-record state with an empty window. -/
theorem init_step (mc w mr bd : Nat) (addr : Addr) (now : ℚ) :
    ConnectionTracker.is_rate_limited (ConnectionTracker.init mc w mr bd) now addr
      = ConnectionTracker.is_rate_limited (midState mc w mr bd addr [] now) now addr := by
  have h1 := midState_step mc w mr bd addr [] now now (by simp) (by simp)
  rw [h1]
  have hclean : ConnectionTracker.cleanup (ConnectionTracker.init mc w mr bd) now
      = ConnectionTracker.init mc w mr bd := by
    simp [ConnectionTracker.cleanup, ConnectionTracker.init]
  simp only [ConnectionTracker.is_rate_limited, hclean]
  have hblocked : List.lookup addr (ConnectionTracker.init mc w mr bd).blocked_clients
      = none := rfl
  rw [hblocked]
  simp only [ConnectionTracker.rateCore, ConnectionTracker.init]
  have hlook : List.lookup addr ([] : List (Addr × ClientRec)) = none := rfl
  simp only [hlook, Option.getD_none, ClientRec.fresh]
  by_cases hthr : 0 + 1 > mr
  · simp [hthr, alistSet, midState]
  · simp [hthr, alistSet, midState]

/-- One-step unfolding of `rateRun`. -/
theorem rateRun_cons (addr : Addr) (s : ConnectionTracker) (t : ℚ) (ts : List ℚ) :
    rateRun addr s (t :: ts)
      = ((s.is_rate_limited t addr).1
          :: (rateRun addr (s.is_rate_limited t addr).2 ts).1,
         (rateRun addr (s.is_rate_limited t addr).2 ts).2) := rfl

/-- A rapid-succession run from the one-record state: every call up to the
threshold returns false, the call that brings the window count to
`max_requests + 1` returns true and installs a block expiring
`block_duration` seconds after the last call. -/
theorem rateRun_mid (mc w mr bd : Nat) (addr : Addr) (t0 : ℚ) :
    ∀ (times reqs : List ℚ) (seen : ℚ),
      times ≠ [] →
      (∀ x ∈ times, t0 ≤ x ∧ x - t0 < (w : ℚ) ∧ x - t0 ≤ 300) →
      (∀ x ∈ reqs, t0 ≤ x) →
      t0 ≤ seen →
      reqs.length + times.length = mr + 1 →
      rateRun addr (midState mc w mr bd addr reqs seen) times
        = (List.replicate (times.length - 1) false ++ [true],
           { midState mc w mr bd addr (reqs ++ times) (times.getLastD t0) with
               blocked_clients := [(addr, times.getLastD t0 + (bd : ℚ))] }) := by
  intro times
  induction times with
  | nil => intro reqs seen hne; exact absurd rfl hne
  | cons t ts ih =>
      intro reqs seen _ htimes hreqs hseen hlen
      have ht := htimes t (List.mem_cons_self t ts)
      have hstep := midState_step mc w mr bd addr reqs seen t
        (by linarith [ht.1, ht.2.2])
        (fun r hr => by
          have h1 := hreqs r hr
          have h2 := ht.2.1
          linarith)
      cases ts with
      | nil =>
          have hthr : reqs.length + 1 > mr := by
            simp at hlen
            omega
          rw [rateRun_cons, hstep]
          simp only [decide_eq_true hthr, if_pos hthr]
          simp [rateRun, List.getLastD]
      | cons t2 ts2 =>
          have hthr : ¬(reqs.length + 1 > mr) := by
            simp at hlen
            omega
          have ih' := ih (reqs ++ [t]) t (by simp)
            (fun x hx => htimes x (List.mem_cons_of_mem t hx))
            (by
              intro x hx
              rcases List.mem_append.mp hx with h | h
              · exact hreqs x h
              · simp at h
                subst h
                exact ht.1)
            ht.1
            (by simp at hlen ⊢; omega)
          rw [rateRun_cons, hstep]
          simp only [decide_eq_false hthr, if_neg hthr, ih']
          refine Prod.ext ?_ ?_
          · simp [List.replicate_succ]
          · simp [List.getLastD_eq_getLast?, List.getLast?_cons_cons,
              List.append_assoc]

/-- C4: on a fresh tracker, `max_requests + 1` rapid checks of one address
(all inside one window and inside the five-minute retention span) return
false `max_requests` times and then true once, installing a block that
expires `block_duration` seconds after the final check; any other address
still has no record at all. -/
theorem c4_rate_limit_threshold (mc w mr bd : Nat) (addr other : Addr)
    (t0 : ℚ) (times : List ℚ)
    (hlen : times.length = mr + 1)
    (hwin : ∀ x ∈ times, t0 ≤ x ∧ x - t0 < (w : ℚ) ∧ x - t0 ≤ 300)
    (hother : other ≠ addr) :
    (rateRun addr (ConnectionTracker.init mc w mr bd) times).1
        = List.replicate mr false ++ [true]
    ∧ List.lookup addr
        ((rateRun addr (ConnectionTracker.init mc w mr bd) times).2).blocked_clients
        = some (times.getLastD t0 + (bd : ℚ))
    ∧ List.lookup other
        ((rateRun addr (ConnectionTracker.init mc w mr bd) times).2).clients = none
    ∧ List.lookup other
        ((rateRun addr (ConnectionTracker.init mc w mr bd) times).2).blocked_clients
        = none := by
  cases times with
  | nil => simp at hlen
  | cons t ts =>
      have ht := hwin t (List.mem_cons_self t ts)
      have hrun : rateRun addr (ConnectionTracker.init mc w mr bd) (t :: ts)
          = rateRun addr (midState mc w mr bd addr [] t) (t :: ts) := by
        simp only [rateRun, init_step]
      rw [hrun, rateRun_mid mc w mr bd addr t0 (t :: ts) [] t (by simp) hwin
        (by simp) ht.1 (by simp at hlen ⊢; omega)]
      have hob : (other == addr) = false := by
        simp [beq_iff_eq]
        exact hother
      refine ⟨?_, ?_, ?_, ?_⟩
      · have : (t :: ts).length - 1 = mr := by
          simp at hlen ⊢
          omega
        rw [this]
      · simp [List.lookup]
      · simp [midState, List.lookup, hob]
      · simp [List.lookup, hob]

/-- Closed instance of `c4_rate_limit_threshold`: three checks with
`max_requests = 2` give false, false, true, and block the address for 600
seconds while the other address stays absent. -/
theorem c4_rate_limit_threshold_witness :
    (rateRun addrW (ConnectionTracker.init 1 60 2 600) [0, 0, 0]).1
        = List.replicate 2 false ++ [true]
    ∧ List.lookup addrW
        ((rateRun addrW (ConnectionTracker.init 1 60 2 600) [0, 0, 0]).2).blocked_clients
        = some (([0, 0, 0] : List ℚ).getLastD 0 + ((600 : Nat) : ℚ))
    ∧ List.lookup otherW
        ((rateRun addrW (ConnectionTracker.init 1 60 2 600) [0, 0, 0]).2).clients = none
    ∧ List.lookup otherW
        ((rateRun addrW (ConnectionTracker.init 1 60 2 600) [0, 0, 0]).2).blocked_clients
        = none :=
  c4_rate_limit_threshold 1 60 2 600 addrW otherW 0 [0, 0, 0] (by norm_num)
    (by
      intro x hx
      simp at hx
      subst hx
      norm_num)
    (by decide)

/-- C5: with `max_connections = 1`, once one address authenticates,
`can_connect` is false for a second address and true again after the first
disconnects; `authenticate` bumps the active-connection counter only on
the unauthenticated-to-authenticated transition (so repeated calls leave
it unchanged), and `disconnect` decrements it only on the reverse
transition. -/
theorem c5_connection_slots :
    (∀ (w mr bd : Nat) (now : ℚ) (a1 a2 : Addr),
        ((ConnectionTracker.authenticate (ConnectionTracker.init 1 w mr bd) now a1).can_connect
            now a2).1 = false
        ∧ ((ConnectionTracker.disconnect
              (ConnectionTracker.authenticate (ConnectionTracker.init 1 w mr bd) now a1)
              a1).can_connect now a2).1 = true)
    ∧ (∀ (s : ConnectionTracker) (now now2 : ℚ) (addr : Addr),
        (ConnectionTracker.authenticate
            (ConnectionTracker.authenticate s now addr) now2 addr).active_connections
          = (ConnectionTracker.authenticate s now addr).active_connections)
    ∧ (∀ (s : ConnectionTracker) (now : ℚ) (addr : Addr) (r : ClientRec),
        List.lookup addr s.clients = some r → r.authenticated = true →
        (ConnectionTracker.authenticate s now addr).active_connections
          = s.active_connections)
    ∧ (∀ (s : ConnectionTracker) (now : ℚ) (addr : Addr),
        (∀ r, List.lookup addr s.clients = some r → r.authenticated = false) →
        (ConnectionTracker.authenticate s now addr).active_connections
          = s.active_connections + 1)
    ∧ (∀ (s : ConnectionTracker) (addr : Addr) (r : ClientRec),
        List.lookup addr s.clients = some r → r.authenticated = true →
        (ConnectionTracker.disconnect s addr).active_connections
          = s.active_connections - 1)
    ∧ (∀ (s : ConnectionTracker) (addr : Addr),
        (∀ r, List.lookup addr s.clients = some r → r.authenticated = false) →
        ConnectionTracker.disconnect s addr = s) := by
  have hauth_none : ∀ (s : ConnectionTracker) (now : ℚ) (addr : Addr),
      (∀ r, List.lookup addr s.clients = some r → r.authenticated = false) →
      (ConnectionTracker.authenticate s now addr).active_connections
        = s.active_connections + 1 := by
    intro s now addr h
    unfold ConnectionTracker.authenticate
    cases hl : List.lookup addr s.clients with
    | none => simp [hl, ClientRec.fresh]
    | some r => simp [hl, h r hl]
  refine ⟨?_, ?_, ?_, hauth_none, ?_, ?_⟩
  · intro w mr bd now a1 a2
    constructor
    · simp [ConnectionTracker.init, ConnectionTracker.authenticate,
        ConnectionTracker.can_connect, ConnectionTracker.cleanup,
        ClientRec.fresh, alistSet, List.lookup, sub_self]
    · simp [ConnectionTracker.init, ConnectionTracker.authenticate,
        ConnectionTracker.disconnect, ConnectionTracker.can_connect,
        ConnectionTracker.cleanup, ClientRec.fresh, alistSet, List.lookup,
        sub_self]
  · intro s now now2 addr
    unfold ConnectionTracker.authenticate
    cases hl : List.lookup addr s.clients with
    | none =>
        simp only [hl, Option.getD_none, Option.getD_some, ClientRec.fresh,
          alistSet_lookup_self]
        simp [alistSet_lookup_self]
    | some r =>
        simp only [hl, Option.getD_some]
        simp [alistSet_lookup_self]
  · intro s now addr r hl hr
    unfold ConnectionTracker.authenticate
    simp [hl, hr]
  · intro s addr r hl hr
    unfold ConnectionTracker.disconnect
    simp [hl, hr]
  · intro s addr h
    unfold ConnectionTracker.disconnect
    cases hl : List.lookup addr s.clients with
    | none => rfl
    | some r => simp [h r hl]

/-- Closed instance of `c5_connection_slots`: the second-address rejection,
idempotent re-authentication, and the disconnect decrement on the concrete
one-client tracker state. -/
theorem c5_connection_slots_witness :
    ((ConnectionTracker.authenticate (ConnectionTracker.init 1 60 100 600) 0 addrW).can_connect
        0 otherW).1 = false
    ∧ (ConnectionTracker.authenticate sAuthW 0 addrW).active_connections
        = sAuthW.active_connections
    ∧ (ConnectionTracker.disconnect sAuthW addrW).active_connections
        = sAuthW.active_connections - 1 :=
  ⟨(c5_connection_slots.1 60 100 600 0 addrW otherW).1,
   c5_connection_slots.2.2.1 sAuthW 0 addrW
     { last_seen := 0, authenticated := true, last_requests := [] } rfl rfl,
   c5_connection_slots.2.2.2.2.1 sAuthW addrW
     { last_seen := 0, authenticated := true, last_requests := [] } rfl rfl⟩

/-- C7: a frame whose body fails JSON decoding ends `read_message` in the
`decodeError` branch (error log "Error decoding message"), while
end-of-stream during either the header read or the body read ends it in
the `closed` branch (debug log "Connection closed"); the two branches emit
different log records.  Both return `None` to the caller, cf. C10. -/
theorem c7_decode_failure_distinct (jsonLoads : List Nat → Option PyVal) :
    (∀ s : List Nat, 4 ≤ s.length →
        beU32 (s.take 4) ≤ MAX_MESSAGE_SIZE →
        beU32 (s.take 4) ≤ (s.drop 4).length →
        jsonLoads ((s.drop 4).take (beU32 (s.take 4))) = none →
        readMessageOutcome jsonLoads s = ReadOutcome.decodeError)
    ∧ (∀ s : List Nat, s.length < 4 →
        readMessageOutcome jsonLoads s = ReadOutcome.closed)
    ∧ (∀ s : List Nat, 4 ≤ s.length →
        beU32 (s.take 4) ≤ MAX_MESSAGE_SIZE →
        (s.drop 4).length < beU32 (s.take 4) →
        readMessageOutcome jsonLoads s = ReadOutcome.closed)
    ∧ ReadOutcome.decodeError.logLine ≠ ReadOutcome.closed.logLine := by
  refine ⟨?_, ?_, ?_, by decide⟩
  · intro s h1 h2 h3 h4
    simp only [readMessageOutcome]
    rw [if_neg (by omega), if_neg (by omega), if_neg (by omega), h4]
  · intro s h1
    simp only [readMessageOutcome]
    rw [if_pos h1]
  · intro s h1 h2 h3
    simp only [readMessageOutcome]
    rw [if_neg (by omega), if_neg (by omega), if_pos h3]

/-- Closed instance of `c7_decode_failure_distinct`: a 1-byte frame whose
body does not parse, an empty stream, and a truncated frame. -/
theorem c7_decode_failure_distinct_witness :
    readMessageOutcome jlNoneW [0, 0, 0, 1, 65] = ReadOutcome.decodeError
    ∧ readMessageOutcome jlNoneW [] = ReadOutcome.closed
    ∧ readMessageOutcome jlNoneW [0, 0, 0, 2, 65] = ReadOutcome.closed :=
  ⟨(c7_decode_failure_distinct jlNoneW).1 [0, 0, 0, 1, 65]
      (by decide) (by decide) (by decide) rfl,
   (c7_decode_failure_distinct jlNoneW).2.1 [] (by decide),
   (c7_decode_failure_distinct jlNoneW).2.2.1 [0, 0, 0, 2, 65]
      (by decide) (by decide) (by decide)⟩

/-- C10: `read_message` returns `None` on every failure: a stream ending
before or inside the frame, an oversized length prefix, and an undecodable
body; in particular an oversized frame is indistinguishable, by return
value, from a cleanly closed connection (the empty stream).  Totality over
the failure cases is the totality of the embedding function itself. -/
theorem c10_read_message_total (jsonLoads : List Nat → Option PyVal) :
    (∀ s : List Nat, s.length < 4 → read_message jsonLoads s = none)
    ∧ (∀ s : List Nat, 4 ≤ s.length → MAX_MESSAGE_SIZE < beU32 (s.take 4) →
        read_message jsonLoads s = none
        ∧ read_message jsonLoads s = read_message jsonLoads [])
    ∧ (∀ s : List Nat, 4 ≤ s.length → beU32 (s.take 4) ≤ MAX_MESSAGE_SIZE →
        (s.drop 4).length < beU32 (s.take 4) → read_message jsonLoads s = none)
    ∧ (∀ s : List Nat, jsonLoads ((s.drop 4).take (beU32 (s.take 4))) = none →
        read_message jsonLoads s = none) := by
  refine ⟨?_, ?_, ?_, ?_⟩
  · intro s h1
    simp only [read_message, readMessageOutcome]
    rw [if_pos h1]
  · intro s h1 h2
    have : read_message jsonLoads s = none := by
      simp only [read_message, readMessageOutcome]
      rw [if_neg (by omega), if_pos (by omega)]
    exact ⟨this, by rw [this]; rfl⟩
  · intro s h1 h2 h3
    simp only [read_message, readMessageOutcome]
    rw [if_neg (by omega), if_neg (by omega), if_pos h3]
  · intro s h4
    simp only [read_message, readMessageOutcome]
    by_cases h1 : s.length < 4
    · rw [if_pos h1]
    · rw [if_neg h1]
      by_cases h2 : beU32 (s.take 4) > MAX_MESSAGE_SIZE
      · rw [if_pos h2]
      · rw [if_neg h2]
        by_cases h3 : (s.drop 4).length < beU32 (s.take 4)
        · rw [if_pos h3]
        · rw [if_neg h3, h4]

/-- Closed instance of `c10_read_message_total`: short, oversized,
truncated and undecodable streams all return `None`. -/
theorem c10_read_message_total_witness :
    read_message jlNoneW [7] = none
    ∧ read_message jlNoneW [255, 255, 255, 255] = none
    ∧ read_message jlNoneW [0, 0, 0, 2, 65] = none
    ∧ read_message jlNoneW [0, 0, 0, 1, 65] = none :=
  ⟨(c10_read_message_total jlNoneW).1 [7] (by decide),
   ((c10_read_message_total jlNoneW).2.1 [255, 255, 255, 255]
      (by decide) (by decide)).1,
   (c10_read_message_total jlNoneW).2.2.1 [0, 0, 0, 2, 65]
      (by decide) (by decide) (by decide),
   (c10_read_message_total jlNoneW).2.2.2 [0, 0, 0, 1, 65] rfl⟩

end PadRelay
